import Mathlib

set_option linter.unusedVariables false
set_option maxRecDepth 16384

/-!
Verification development for the lora_gateway_logger repository.

The ingestion pipeline of the repository is embedded shallowly:

* JSON documents (the result of json.loads on an MQTT payload) are modelled
  by the inductive type `Json`; a parsed payload document is a Python dict,
  modelled as an association list `PyDict` with distinct keys.  Python `None`
  and JSON `null` coincide (json.loads maps null to None), so both are
  `Json.null`.
* Dynamic attribute and type errors raised by duck-typed access (len, [0],
  .get, in) are modelled by `PyResult`; the blanket `except` handlers of the
  source are modelled by explicit propagation of an exception flag.
* Library calls (str.split, base64.b64decode, bytes.decode/utf-8,
  str.isprintable, repr, bytes.hex().upper(), datetime date formatting) are
  modelled by executable Lean functions that follow the documented CPython
  behaviour; each carries a doc comment naming the call it models.
* The per-message dispatcher state (the self.stats dict) is the structure
  `Stats`; sink outcomes (SQLite insert, JSON file append) are inputs of type
  `SinkEnv`, and attempted sink operations are reported as a `List SinkWrite`.
-/

/-- Model of a parsed JSON value (the result of json.loads).  Numbers are
modelled as integers; no claim in this development depends on non-integral
numeric values. -/
inductive Json where
  | null
  | bool (b : Bool)
  | num (n : Int)
  | str (s : String)
  | arr (elems : List Json)
  | obj (fields : List (String × Json))
deriving Repr

/-- Model of a Python dict produced by json.loads on a JSON object: an
association list with (assumed) distinct keys. -/
abbrev PyDict := List (String × Json)

/-- Key lookup in a dict, first match. -/
def dictLookup : PyDict → String → Option Json
  | [], _ => none
  | (k0, v) :: rest, k => if k0 = k then some v else dictLookup rest k

/-- Model of dict.get(k): the value when the key is present, Python None
(JSON null) otherwise. -/
def dictGet (p : PyDict) (k : String) : Json :=
  (dictLookup p k).getD Json.null

/-- Outcome of a Python expression that can raise: either a value or a raised
exception carrying a message. -/
inductive PyResult (α : Type) where
  | ok (a : α)
  | exn (msg : String)
deriving Repr, DecidableEq

/-- Model of len(x): defined for str, list and dict; raises TypeError
otherwise (including None and numbers). -/
def pyLen : Json → PyResult Nat
  | .str s => .ok s.length
  | .arr l => .ok l.length
  | .obj l => .ok l.length
  | _ => .exn "TypeError: object has no len()"

/-- Model of x[0]: first element of a list, first character of a string;
a dict raises KeyError for the key 0 (all keys here are strings); any other
value raises TypeError. -/
def pyIndex0 : Json → PyResult Json
  | .arr l => match l with
    | [] => .exn "IndexError: list index out of range"
    | x :: _ => .ok x
  | .str s => match s.toList with
    | [] => .exn "IndexError: string index out of range"
    | c :: _ => .ok (.str (String.mk [c]))
  | .obj _ => .exn "KeyError: 0"
  | _ => .exn "TypeError: object is not subscriptable"

/-- Model of x.get(k): only a dict has the get attribute; on anything else
an AttributeError is raised. -/
def pyGet : Json → String → PyResult Json
  | .obj l, k => .ok (dictGet l k)
  | _, _ => .exn "AttributeError: object has no attribute get"

/-- Membership of the string k among the elements of a Python list: equality
with a non-string element is simply False. -/
def listContainsStr (l : List Json) (k : String) : Bool :=
  l.any (fun j => match j with | .str s => s = k | _ => false)

/-- Substring test on character lists (model of Python `sub in str`). -/
def strContains (hay pat : List Char) : Bool :=
  match hay with
  | [] => pat.isEmpty
  | _ :: tl => pat.isPrefixOf hay || strContains tl pat

/-- Model of `k in x`: key membership for a dict, element membership for a
list, substring test for a string; TypeError otherwise. -/
def pyIn (k : String) : Json → PyResult Bool
  | .obj l => .ok (dictLookup l k).isSome
  | .arr l => .ok (listContainsStr l k)
  | .str s => .ok (strContains s.toList k.toList)
  | _ => .exn "TypeError: argument is not iterable"

/-- Model of x[k] for a string key: dict subscription, raising KeyError when
the key is absent; TypeError on non-dicts. -/
def pySubscript : Json → String → PyResult Json
  | .obj l, k => match dictLookup l k with
    | some v => .ok v
    | none => .exn "KeyError"
  | _, _ => .exn "TypeError: object is not subscriptable"

/-- Python truthiness of a JSON value: None, False, 0, empty string, empty
list and empty dict are falsy. -/
def pyTruthy : Json → Bool
  | .null => false
  | .bool b => b
  | .num n => n ≠ 0
  | .str s => s.length ≠ 0
  | .arr l => !l.isEmpty
  | .obj l => !l.isEmpty

/-- Model of the Python `a or b` expression on JSON values: the first operand
when it is truthy, the second operand otherwise. -/
def pyOr (a b : Json) : Json := if pyTruthy a then a else b

/-- Split a character list on the slash character; model of
str.split with a one-character separator (an empty string yields one empty
segment, adjacent separators yield empty segments). -/
def splitChars : List Char → List (List Char)
  | [] => [[]]
  | c :: cs =>
    if c = '/' then [] :: splitChars cs
    else
      match splitChars cs with
      | [] => [[c]]
      | h :: t => (c :: h) :: t

/-- Model of topic.split with separator slash. -/
def splitSlash (s : String) : List String :=
  (splitChars s.toList).map (fun l => String.mk l)

/-- Embedding of LoRaMessageParser.parse_topic (src/core/message_parser.py,
lines 15-31): split the topic on the slash, return None when fewer than six
segments, otherwise the triple of segments 1, 3 and 5.  The indices are
guarded by the length test, so the positional reads cannot raise; the
surrounding try/except of the source is therefore unreachable and the
function is total. -/
def parse_topic (topic : String) : Option (String × String × String) :=
  let topic_parts := splitSlash topic
  if topic_parts.length < 6 then none
  else some (topic_parts.getD 1 "", topic_parts.getD 3 "", topic_parts.getD 5 "")

/-- Membership of a character in the standard base64 alphabet. -/
def isB64Char (c : Char) : Bool :=
  ('A' ≤ c && c ≤ 'Z') || ('a' ≤ c && c ≤ 'z') || ('0' ≤ c && c ≤ '9') || c = '+' || c = '/'

/-- Six-bit value of a base64 alphabet character. -/
def b64val (c : Char) : Nat :=
  if 'A' ≤ c && c ≤ 'Z' then c.toNat - 65
  else if 'a' ≤ c && c ≤ 'z' then c.toNat - 97 + 26
  else if '0' ≤ c && c ≤ '9' then c.toNat - 48 + 52
  else if c = '+' then 62
  else 63

/-- The k-byte big-endian decomposition of a natural number. -/
def natToBytesBE (k v : Nat) : List Nat :=
  (List.range k).map (fun i => v / 256 ^ (k - 1 - i) % 256)

/-- Outcome of base64.b64decode: the decoded byte list, or the message of the
raised exception (binascii.Error or ValueError). -/
inductive B64Result where
  | ok (bytes : List Nat)
  | err (msg : String)
deriving Repr, DecidableEq

/-- Model of base64.b64decode on a str argument with validate=False
(the call used by the source): non-ASCII input raises; characters outside the
alphabet are discarded; a data-character count that is 1 more than a multiple
of 4 raises; missing padding raises Incorrect padding; otherwise the data
characters are decoded six bits at a time and the trailing partial byte is
dropped. -/
def b64decode (s : String) : B64Result :=
  if s.toList.any (fun c => c.toNat ≥ 128) then
    .err "string argument should contain only ASCII characters"
  else
    let filtered := s.toList.filter (fun c => isB64Char c || c = '=')
    let data := filtered.takeWhile (fun c => c ≠ '=')
    let pads := (filtered.drop data.length).filter (fun c => c = '=')
    let n := data.length
    if n % 4 = 1 then
      .err "Invalid base64-encoded string: number of data characters cannot be 1 more than a multiple of 4"
    else if n % 4 ≠ 0 && pads.length < 4 - n % 4 then
      .err "Incorrect padding"
    else
      let acc := data.foldl (fun a c => a * 64 + b64val c) 0
      let nbytes := 6 * n / 8
      .ok (natToBytesBE nbytes (acc / 2 ^ (6 * n % 8)))

/-- Continuation byte test for UTF-8. -/
def isCont (b : Nat) : Bool := 0x80 ≤ b && b ≤ 0xBF

/-- Fuel-indexed strict UTF-8 decoder; the fuel bounds the number of decoded
characters and is instantiated with the byte count.  Overlong encodings,
surrogates, code points above 0x10FFFF and truncated sequences are rejected,
matching the strict errors mode of bytes.decode. -/
def utf8DecodeFuel : Nat → List Nat → Option (List Char)
  | _, [] => some []
  | 0, _ :: _ => none
  | fuel + 1, b :: rest =>
    if b < 0x80 then
      (utf8DecodeFuel fuel rest).map (fun cs => Char.ofNat b :: cs)
    else if b < 0xC2 then none
    else if b < 0xE0 then
      match rest with
      | b1 :: rest1 =>
        if isCont b1 then
          (utf8DecodeFuel fuel rest1).map (fun cs => Char.ofNat ((b - 0xC0) * 64 + (b1 - 0x80)) :: cs)
        else none
      | [] => none
    else if b < 0xF0 then
      match rest with
      | b1 :: b2 :: rest2 =>
        let lo := if b = 0xE0 then 0xA0 else 0x80
        let hi := if b = 0xED then 0x9F else 0xBF
        if (lo ≤ b1 && b1 ≤ hi) && isCont b2 then
          (utf8DecodeFuel fuel rest2).map
            (fun cs => Char.ofNat ((b - 0xE0) * 4096 + (b1 - 0x80) * 64 + (b2 - 0x80)) :: cs)
        else none
      | _ => none
    else if b < 0xF5 then
      match rest with
      | b1 :: b2 :: b3 :: rest3 =>
        let lo := if b = 0xF0 then 0x90 else 0x80
        let hi := if b = 0xF4 then 0x8F else 0xBF
        if (lo ≤ b1 && b1 ≤ hi) && (isCont b2 && isCont b3) then
          (utf8DecodeFuel fuel rest3).map
            (fun cs => Char.ofNat ((b - 0xF0) * 262144 + (b1 - 0x80) * 4096 + (b2 - 0x80) * 64 + (b3 - 0x80)) :: cs)
        else none
      | _ => none
    else none

/-- Model of bytes.decode on UTF-8 with strict errors: the character list on
success, none when a UnicodeDecodeError would be raised. -/
def utf8Decode (bs : List Nat) : Option (List Char) := utf8DecodeFuel bs.length bs

/-- The maximal runs of consecutive code points at or above 0x80 for which
str.isprintable() is False in CPython 3.11 (Unicode 14.0.0): the C1
controls and the separator (Zs, Zl, Zp), format (Cf), surrogate (Cs),
private-use (Co) and unassigned (Cn) categories. -/
def nonPrintableRanges : List (Nat × Nat) := [
  (0x80, 0xA0), (0xAD, 0xAD), (0x378, 0x379), (0x380, 0x383), (0x38B, 0x38B),
  (0x38D, 0x38D), (0x3A2, 0x3A2), (0x530, 0x530), (0x557, 0x558), (0x58B, 0x58C),
  (0x590, 0x590), (0x5C8, 0x5CF), (0x5EB, 0x5EE), (0x5F5, 0x605), (0x61C, 0x61C),
  (0x6DD, 0x6DD), (0x70E, 0x70F), (0x74B, 0x74C), (0x7B2, 0x7BF), (0x7FB, 0x7FC),
  (0x82E, 0x82F), (0x83F, 0x83F), (0x85C, 0x85D), (0x85F, 0x85F), (0x86B, 0x86F),
  (0x88F, 0x897), (0x8E2, 0x8E2), (0x984, 0x984), (0x98D, 0x98E), (0x991, 0x992),
  (0x9A9, 0x9A9), (0x9B1, 0x9B1), (0x9B3, 0x9B5), (0x9BA, 0x9BB), (0x9C5, 0x9C6),
  (0x9C9, 0x9CA), (0x9CF, 0x9D6), (0x9D8, 0x9DB), (0x9DE, 0x9DE), (0x9E4, 0x9E5),
  (0x9FF, 0xA00), (0xA04, 0xA04), (0xA0B, 0xA0E), (0xA11, 0xA12), (0xA29, 0xA29),
  (0xA31, 0xA31), (0xA34, 0xA34), (0xA37, 0xA37), (0xA3A, 0xA3B), (0xA3D, 0xA3D),
  (0xA43, 0xA46), (0xA49, 0xA4A), (0xA4E, 0xA50), (0xA52, 0xA58), (0xA5D, 0xA5D),
  (0xA5F, 0xA65), (0xA77, 0xA80), (0xA84, 0xA84), (0xA8E, 0xA8E), (0xA92, 0xA92),
  (0xAA9, 0xAA9), (0xAB1, 0xAB1), (0xAB4, 0xAB4), (0xABA, 0xABB), (0xAC6, 0xAC6),
  (0xACA, 0xACA), (0xACE, 0xACF), (0xAD1, 0xADF), (0xAE4, 0xAE5), (0xAF2, 0xAF8),
  (0xB00, 0xB00), (0xB04, 0xB04), (0xB0D, 0xB0E), (0xB11, 0xB12), (0xB29, 0xB29),
  (0xB31, 0xB31), (0xB34, 0xB34), (0xB3A, 0xB3B), (0xB45, 0xB46), (0xB49, 0xB4A),
  (0xB4E, 0xB54), (0xB58, 0xB5B), (0xB5E, 0xB5E), (0xB64, 0xB65), (0xB78, 0xB81),
  (0xB84, 0xB84), (0xB8B, 0xB8D), (0xB91, 0xB91), (0xB96, 0xB98), (0xB9B, 0xB9B),
  (0xB9D, 0xB9D), (0xBA0, 0xBA2), (0xBA5, 0xBA7), (0xBAB, 0xBAD), (0xBBA, 0xBBD),
  (0xBC3, 0xBC5), (0xBC9, 0xBC9), (0xBCE, 0xBCF), (0xBD1, 0xBD6), (0xBD8, 0xBE5),
  (0xBFB, 0xBFF), (0xC0D, 0xC0D), (0xC11, 0xC11), (0xC29, 0xC29), (0xC3A, 0xC3B),
  (0xC45, 0xC45), (0xC49, 0xC49), (0xC4E, 0xC54), (0xC57, 0xC57), (0xC5B, 0xC5C),
  (0xC5E, 0xC5F), (0xC64, 0xC65), (0xC70, 0xC76), (0xC8D, 0xC8D), (0xC91, 0xC91),
  (0xCA9, 0xCA9), (0xCB4, 0xCB4), (0xCBA, 0xCBB), (0xCC5, 0xCC5), (0xCC9, 0xCC9),
  (0xCCE, 0xCD4), (0xCD7, 0xCDC), (0xCDF, 0xCDF), (0xCE4, 0xCE5), (0xCF0, 0xCF0),
  (0xCF3, 0xCFF), (0xD0D, 0xD0D), (0xD11, 0xD11), (0xD45, 0xD45), (0xD49, 0xD49),
  (0xD50, 0xD53), (0xD64, 0xD65), (0xD80, 0xD80), (0xD84, 0xD84), (0xD97, 0xD99),
  (0xDB2, 0xDB2), (0xDBC, 0xDBC), (0xDBE, 0xDBF), (0xDC7, 0xDC9), (0xDCB, 0xDCE),
  (0xDD5, 0xDD5), (0xDD7, 0xDD7), (0xDE0, 0xDE5), (0xDF0, 0xDF1), (0xDF5, 0xE00),
  (0xE3B, 0xE3E), (0xE5C, 0xE80), (0xE83, 0xE83), (0xE85, 0xE85), (0xE8B, 0xE8B),
  (0xEA4, 0xEA4), (0xEA6, 0xEA6), (0xEBE, 0xEBF), (0xEC5, 0xEC5), (0xEC7, 0xEC7),
  (0xECE, 0xECF), (0xEDA, 0xEDB), (0xEE0, 0xEFF), (0xF48, 0xF48), (0xF6D, 0xF70),
  (0xF98, 0xF98), (0xFBD, 0xFBD), (0xFCD, 0xFCD), (0xFDB, 0xFFF), (0x10C6, 0x10C6),
  (0x10C8, 0x10CC), (0x10CE, 0x10CF), (0x1249, 0x1249), (0x124E, 0x124F), (0x1257, 0x1257),
  (0x1259, 0x1259), (0x125E, 0x125F), (0x1289, 0x1289), (0x128E, 0x128F), (0x12B1, 0x12B1),
  (0x12B6, 0x12B7), (0x12BF, 0x12BF), (0x12C1, 0x12C1), (0x12C6, 0x12C7), (0x12D7, 0x12D7),
  (0x1311, 0x1311), (0x1316, 0x1317), (0x135B, 0x135C), (0x137D, 0x137F), (0x139A, 0x139F),
  (0x13F6, 0x13F7), (0x13FE, 0x13FF), (0x1680, 0x1680), (0x169D, 0x169F), (0x16F9, 0x16FF),
  (0x1716, 0x171E), (0x1737, 0x173F), (0x1754, 0x175F), (0x176D, 0x176D), (0x1771, 0x1771),
  (0x1774, 0x177F), (0x17DE, 0x17DF), (0x17EA, 0x17EF), (0x17FA, 0x17FF), (0x180E, 0x180E),
  (0x181A, 0x181F), (0x1879, 0x187F), (0x18AB, 0x18AF), (0x18F6, 0x18FF), (0x191F, 0x191F),
  (0x192C, 0x192F), (0x193C, 0x193F), (0x1941, 0x1943), (0x196E, 0x196F), (0x1975, 0x197F),
  (0x19AC, 0x19AF), (0x19CA, 0x19CF), (0x19DB, 0x19DD), (0x1A1C, 0x1A1D), (0x1A5F, 0x1A5F),
  (0x1A7D, 0x1A7E), (0x1A8A, 0x1A8F), (0x1A9A, 0x1A9F), (0x1AAE, 0x1AAF), (0x1ACF, 0x1AFF),
  (0x1B4D, 0x1B4F), (0x1B7F, 0x1B7F), (0x1BF4, 0x1BFB), (0x1C38, 0x1C3A), (0x1C4A, 0x1C4C),
  (0x1C89, 0x1C8F), (0x1CBB, 0x1CBC), (0x1CC8, 0x1CCF), (0x1CFB, 0x1CFF), (0x1F16, 0x1F17),
  (0x1F1E, 0x1F1F), (0x1F46, 0x1F47), (0x1F4E, 0x1F4F), (0x1F58, 0x1F58), (0x1F5A, 0x1F5A),
  (0x1F5C, 0x1F5C), (0x1F5E, 0x1F5E), (0x1F7E, 0x1F7F), (0x1FB5, 0x1FB5), (0x1FC5, 0x1FC5),
  (0x1FD4, 0x1FD5), (0x1FDC, 0x1FDC), (0x1FF0, 0x1FF1), (0x1FF5, 0x1FF5), (0x1FFF, 0x200F),
  (0x2028, 0x202F), (0x205F, 0x206F), (0x2072, 0x2073), (0x208F, 0x208F), (0x209D, 0x209F),
  (0x20C1, 0x20CF), (0x20F1, 0x20FF), (0x218C, 0x218F), (0x2427, 0x243F), (0x244B, 0x245F),
  (0x2B74, 0x2B75), (0x2B96, 0x2B96), (0x2CF4, 0x2CF8), (0x2D26, 0x2D26), (0x2D28, 0x2D2C),
  (0x2D2E, 0x2D2F), (0x2D68, 0x2D6E), (0x2D71, 0x2D7E), (0x2D97, 0x2D9F), (0x2DA7, 0x2DA7),
  (0x2DAF, 0x2DAF), (0x2DB7, 0x2DB7), (0x2DBF, 0x2DBF), (0x2DC7, 0x2DC7), (0x2DCF, 0x2DCF),
  (0x2DD7, 0x2DD7), (0x2DDF, 0x2DDF), (0x2E5E, 0x2E7F), (0x2E9A, 0x2E9A), (0x2EF4, 0x2EFF),
  (0x2FD6, 0x2FEF), (0x2FFC, 0x3000), (0x3040, 0x3040), (0x3097, 0x3098), (0x3100, 0x3104),
  (0x3130, 0x3130), (0x318F, 0x318F), (0x31E4, 0x31EF), (0x321F, 0x321F), (0xA48D, 0xA48F),
  (0xA4C7, 0xA4CF), (0xA62C, 0xA63F), (0xA6F8, 0xA6FF), (0xA7CB, 0xA7CF), (0xA7D2, 0xA7D2),
  (0xA7D4, 0xA7D4), (0xA7DA, 0xA7F1), (0xA82D, 0xA82F), (0xA83A, 0xA83F), (0xA878, 0xA87F),
  (0xA8C6, 0xA8CD), (0xA8DA, 0xA8DF), (0xA954, 0xA95E), (0xA97D, 0xA97F), (0xA9CE, 0xA9CE),
  (0xA9DA, 0xA9DD), (0xA9FF, 0xA9FF), (0xAA37, 0xAA3F), (0xAA4E, 0xAA4F), (0xAA5A, 0xAA5B),
  (0xAAC3, 0xAADA), (0xAAF7, 0xAB00), (0xAB07, 0xAB08), (0xAB0F, 0xAB10), (0xAB17, 0xAB1F),
  (0xAB27, 0xAB27), (0xAB2F, 0xAB2F), (0xAB6C, 0xAB6F), (0xABEE, 0xABEF), (0xABFA, 0xABFF),
  (0xD7A4, 0xD7AF), (0xD7C7, 0xD7CA), (0xD7FC, 0xF8FF), (0xFA6E, 0xFA6F), (0xFADA, 0xFAFF),
  (0xFB07, 0xFB12), (0xFB18, 0xFB1C), (0xFB37, 0xFB37), (0xFB3D, 0xFB3D), (0xFB3F, 0xFB3F),
  (0xFB42, 0xFB42), (0xFB45, 0xFB45), (0xFBC3, 0xFBD2), (0xFD90, 0xFD91), (0xFDC8, 0xFDCE),
  (0xFDD0, 0xFDEF), (0xFE1A, 0xFE1F), (0xFE53, 0xFE53), (0xFE67, 0xFE67), (0xFE6C, 0xFE6F),
  (0xFE75, 0xFE75), (0xFEFD, 0xFF00), (0xFFBF, 0xFFC1), (0xFFC8, 0xFFC9), (0xFFD0, 0xFFD1),
  (0xFFD8, 0xFFD9), (0xFFDD, 0xFFDF), (0xFFE7, 0xFFE7), (0xFFEF, 0xFFFB), (0xFFFE, 0xFFFF),
  (0x1000C, 0x1000C), (0x10027, 0x10027), (0x1003B, 0x1003B), (0x1003E, 0x1003E), (0x1004E, 0x1004F),
  (0x1005E, 0x1007F), (0x100FB, 0x100FF), (0x10103, 0x10106), (0x10134, 0x10136), (0x1018F, 0x1018F),
  (0x1019D, 0x1019F), (0x101A1, 0x101CF), (0x101FE, 0x1027F), (0x1029D, 0x1029F), (0x102D1, 0x102DF),
  (0x102FC, 0x102FF), (0x10324, 0x1032C), (0x1034B, 0x1034F), (0x1037B, 0x1037F), (0x1039E, 0x1039E),
  (0x103C4, 0x103C7), (0x103D6, 0x103FF), (0x1049E, 0x1049F), (0x104AA, 0x104AF), (0x104D4, 0x104D7),
  (0x104FC, 0x104FF), (0x10528, 0x1052F), (0x10564, 0x1056E), (0x1057B, 0x1057B), (0x1058B, 0x1058B),
  (0x10593, 0x10593), (0x10596, 0x10596), (0x105A2, 0x105A2), (0x105B2, 0x105B2), (0x105BA, 0x105BA),
  (0x105BD, 0x105FF), (0x10737, 0x1073F), (0x10756, 0x1075F), (0x10768, 0x1077F), (0x10786, 0x10786),
  (0x107B1, 0x107B1), (0x107BB, 0x107FF), (0x10806, 0x10807), (0x10809, 0x10809), (0x10836, 0x10836),
  (0x10839, 0x1083B), (0x1083D, 0x1083E), (0x10856, 0x10856), (0x1089F, 0x108A6), (0x108B0, 0x108DF),
  (0x108F3, 0x108F3), (0x108F6, 0x108FA), (0x1091C, 0x1091E), (0x1093A, 0x1093E), (0x10940, 0x1097F),
  (0x109B8, 0x109BB), (0x109D0, 0x109D1), (0x10A04, 0x10A04), (0x10A07, 0x10A0B), (0x10A14, 0x10A14),
  (0x10A18, 0x10A18), (0x10A36, 0x10A37), (0x10A3B, 0x10A3E), (0x10A49, 0x10A4F), (0x10A59, 0x10A5F),
  (0x10AA0, 0x10ABF), (0x10AE7, 0x10AEA), (0x10AF7, 0x10AFF), (0x10B36, 0x10B38), (0x10B56, 0x10B57),
  (0x10B73, 0x10B77), (0x10B92, 0x10B98), (0x10B9D, 0x10BA8), (0x10BB0, 0x10BFF), (0x10C49, 0x10C7F),
  (0x10CB3, 0x10CBF), (0x10CF3, 0x10CF9), (0x10D28, 0x10D2F), (0x10D3A, 0x10E5F), (0x10E7F, 0x10E7F),
  (0x10EAA, 0x10EAA), (0x10EAE, 0x10EAF), (0x10EB2, 0x10EFF), (0x10F28, 0x10F2F), (0x10F5A, 0x10F6F),
  (0x10F8A, 0x10FAF), (0x10FCC, 0x10FDF), (0x10FF7, 0x10FFF), (0x1104E, 0x11051), (0x11076, 0x1107E),
  (0x110BD, 0x110BD), (0x110C3, 0x110CF), (0x110E9, 0x110EF), (0x110FA, 0x110FF), (0x11135, 0x11135),
  (0x11148, 0x1114F), (0x11177, 0x1117F), (0x111E0, 0x111E0), (0x111F5, 0x111FF), (0x11212, 0x11212),
  (0x1123F, 0x1127F), (0x11287, 0x11287), (0x11289, 0x11289), (0x1128E, 0x1128E), (0x1129E, 0x1129E),
  (0x112AA, 0x112AF), (0x112EB, 0x112EF), (0x112FA, 0x112FF), (0x11304, 0x11304), (0x1130D, 0x1130E),
  (0x11311, 0x11312), (0x11329, 0x11329), (0x11331, 0x11331), (0x11334, 0x11334), (0x1133A, 0x1133A),
  (0x11345, 0x11346), (0x11349, 0x1134A), (0x1134E, 0x1134F), (0x11351, 0x11356), (0x11358, 0x1135C),
  (0x11364, 0x11365), (0x1136D, 0x1136F), (0x11375, 0x113FF), (0x1145C, 0x1145C), (0x11462, 0x1147F),
  (0x114C8, 0x114CF), (0x114DA, 0x1157F), (0x115B6, 0x115B7), (0x115DE, 0x115FF), (0x11645, 0x1164F),
  (0x1165A, 0x1165F), (0x1166D, 0x1167F), (0x116BA, 0x116BF), (0x116CA, 0x116FF), (0x1171B, 0x1171C),
  (0x1172C, 0x1172F), (0x11747, 0x117FF), (0x1183C, 0x1189F), (0x118F3, 0x118FE), (0x11907, 0x11908),
  (0x1190A, 0x1190B), (0x11914, 0x11914), (0x11917, 0x11917), (0x11936, 0x11936), (0x11939, 0x1193A),
  (0x11947, 0x1194F), (0x1195A, 0x1199F), (0x119A8, 0x119A9), (0x119D8, 0x119D9), (0x119E5, 0x119FF),
  (0x11A48, 0x11A4F), (0x11AA3, 0x11AAF), (0x11AF9, 0x11BFF), (0x11C09, 0x11C09), (0x11C37, 0x11C37),
  (0x11C46, 0x11C4F), (0x11C6D, 0x11C6F), (0x11C90, 0x11C91), (0x11CA8, 0x11CA8), (0x11CB7, 0x11CFF),
  (0x11D07, 0x11D07), (0x11D0A, 0x11D0A), (0x11D37, 0x11D39), (0x11D3B, 0x11D3B), (0x11D3E, 0x11D3E),
  (0x11D48, 0x11D4F), (0x11D5A, 0x11D5F), (0x11D66, 0x11D66), (0x11D69, 0x11D69), (0x11D8F, 0x11D8F),
  (0x11D92, 0x11D92), (0x11D99, 0x11D9F), (0x11DAA, 0x11EDF), (0x11EF9, 0x11FAF), (0x11FB1, 0x11FBF),
  (0x11FF2, 0x11FFE), (0x1239A, 0x123FF), (0x1246F, 0x1246F), (0x12475, 0x1247F), (0x12544, 0x12F8F),
  (0x12FF3, 0x12FFF), (0x1342F, 0x143FF), (0x14647, 0x167FF), (0x16A39, 0x16A3F), (0x16A5F, 0x16A5F),
  (0x16A6A, 0x16A6D), (0x16ABF, 0x16ABF), (0x16ACA, 0x16ACF), (0x16AEE, 0x16AEF), (0x16AF6, 0x16AFF),
  (0x16B46, 0x16B4F), (0x16B5A, 0x16B5A), (0x16B62, 0x16B62), (0x16B78, 0x16B7C), (0x16B90, 0x16E3F),
  (0x16E9B, 0x16EFF), (0x16F4B, 0x16F4E), (0x16F88, 0x16F8E), (0x16FA0, 0x16FDF), (0x16FE5, 0x16FEF),
  (0x16FF2, 0x16FFF), (0x187F8, 0x187FF), (0x18CD6, 0x18CFF), (0x18D09, 0x1AFEF), (0x1AFF4, 0x1AFF4),
  (0x1AFFC, 0x1AFFC), (0x1AFFF, 0x1AFFF), (0x1B123, 0x1B14F), (0x1B153, 0x1B163), (0x1B168, 0x1B16F),
  (0x1B2FC, 0x1BBFF), (0x1BC6B, 0x1BC6F), (0x1BC7D, 0x1BC7F), (0x1BC89, 0x1BC8F), (0x1BC9A, 0x1BC9B),
  (0x1BCA0, 0x1CEFF), (0x1CF2E, 0x1CF2F), (0x1CF47, 0x1CF4F), (0x1CFC4, 0x1CFFF), (0x1D0F6, 0x1D0FF),
  (0x1D127, 0x1D128), (0x1D173, 0x1D17A), (0x1D1EB, 0x1D1FF), (0x1D246, 0x1D2DF), (0x1D2F4, 0x1D2FF),
  (0x1D357, 0x1D35F), (0x1D379, 0x1D3FF), (0x1D455, 0x1D455), (0x1D49D, 0x1D49D), (0x1D4A0, 0x1D4A1),
  (0x1D4A3, 0x1D4A4), (0x1D4A7, 0x1D4A8), (0x1D4AD, 0x1D4AD), (0x1D4BA, 0x1D4BA), (0x1D4BC, 0x1D4BC),
  (0x1D4C4, 0x1D4C4), (0x1D506, 0x1D506), (0x1D50B, 0x1D50C), (0x1D515, 0x1D515), (0x1D51D, 0x1D51D),
  (0x1D53A, 0x1D53A), (0x1D53F, 0x1D53F), (0x1D545, 0x1D545), (0x1D547, 0x1D549), (0x1D551, 0x1D551),
  (0x1D6A6, 0x1D6A7), (0x1D7CC, 0x1D7CD), (0x1DA8C, 0x1DA9A), (0x1DAA0, 0x1DAA0), (0x1DAB0, 0x1DEFF),
  (0x1DF1F, 0x1DFFF), (0x1E007, 0x1E007), (0x1E019, 0x1E01A), (0x1E022, 0x1E022), (0x1E025, 0x1E025),
  (0x1E02B, 0x1E0FF), (0x1E12D, 0x1E12F), (0x1E13E, 0x1E13F), (0x1E14A, 0x1E14D), (0x1E150, 0x1E28F),
  (0x1E2AF, 0x1E2BF), (0x1E2FA, 0x1E2FE), (0x1E300, 0x1E7DF), (0x1E7E7, 0x1E7E7), (0x1E7EC, 0x1E7EC),
  (0x1E7EF, 0x1E7EF), (0x1E7FF, 0x1E7FF), (0x1E8C5, 0x1E8C6), (0x1E8D7, 0x1E8FF), (0x1E94C, 0x1E94F),
  (0x1E95A, 0x1E95D), (0x1E960, 0x1EC70), (0x1ECB5, 0x1ED00), (0x1ED3E, 0x1EDFF), (0x1EE04, 0x1EE04),
  (0x1EE20, 0x1EE20), (0x1EE23, 0x1EE23), (0x1EE25, 0x1EE26), (0x1EE28, 0x1EE28), (0x1EE33, 0x1EE33),
  (0x1EE38, 0x1EE38), (0x1EE3A, 0x1EE3A), (0x1EE3C, 0x1EE41), (0x1EE43, 0x1EE46), (0x1EE48, 0x1EE48),
  (0x1EE4A, 0x1EE4A), (0x1EE4C, 0x1EE4C), (0x1EE50, 0x1EE50), (0x1EE53, 0x1EE53), (0x1EE55, 0x1EE56),
  (0x1EE58, 0x1EE58), (0x1EE5A, 0x1EE5A), (0x1EE5C, 0x1EE5C), (0x1EE5E, 0x1EE5E), (0x1EE60, 0x1EE60),
  (0x1EE63, 0x1EE63), (0x1EE65, 0x1EE66), (0x1EE6B, 0x1EE6B), (0x1EE73, 0x1EE73), (0x1EE78, 0x1EE78),
  (0x1EE7D, 0x1EE7D), (0x1EE7F, 0x1EE7F), (0x1EE8A, 0x1EE8A), (0x1EE9C, 0x1EEA0), (0x1EEA4, 0x1EEA4),
  (0x1EEAA, 0x1EEAA), (0x1EEBC, 0x1EEEF), (0x1EEF2, 0x1EFFF), (0x1F02C, 0x1F02F), (0x1F094, 0x1F09F),
  (0x1F0AF, 0x1F0B0), (0x1F0C0, 0x1F0C0), (0x1F0D0, 0x1F0D0), (0x1F0F6, 0x1F0FF), (0x1F1AE, 0x1F1E5),
  (0x1F203, 0x1F20F), (0x1F23C, 0x1F23F), (0x1F249, 0x1F24F), (0x1F252, 0x1F25F), (0x1F266, 0x1F2FF),
  (0x1F6D8, 0x1F6DC), (0x1F6ED, 0x1F6EF), (0x1F6FD, 0x1F6FF), (0x1F774, 0x1F77F), (0x1F7D9, 0x1F7DF),
  (0x1F7EC, 0x1F7EF), (0x1F7F1, 0x1F7FF), (0x1F80C, 0x1F80F), (0x1F848, 0x1F84F), (0x1F85A, 0x1F85F),
  (0x1F888, 0x1F88F), (0x1F8AE, 0x1F8AF), (0x1F8B2, 0x1F8FF), (0x1FA54, 0x1FA5F), (0x1FA6E, 0x1FA6F),
  (0x1FA75, 0x1FA77), (0x1FA7D, 0x1FA7F), (0x1FA87, 0x1FA8F), (0x1FAAD, 0x1FAAF), (0x1FABB, 0x1FABF),
  (0x1FAC6, 0x1FACF), (0x1FADA, 0x1FADF), (0x1FAE8, 0x1FAEF), (0x1FAF7, 0x1FAFF), (0x1FB93, 0x1FB93),
  (0x1FBCB, 0x1FBEF), (0x1FBFA, 0x1FFFF), (0x2A6E0, 0x2A6FF), (0x2B739, 0x2B73F), (0x2B81E, 0x2B81F),
  (0x2CEA2, 0x2CEAF), (0x2EBE1, 0x2F7FF), (0x2FA1E, 0x2FFFF), (0x3134B, 0xE00FF), (0xE01F0, 0x10FFFF)]

/-- Model of str.isprintable on one character: an ASCII character is
printable exactly when it lies between space and tilde (DEL and the controls
are not), and a character at or above 0x80 is printable exactly when its code
point falls in none of the `nonPrintableRanges`. -/
def isPrintableChar (c : Char) : Bool :=
  let n := c.toNat
  if n < 0x80 then 0x20 ≤ n && n ≤ 0x7E
  else !(nonPrintableRanges.any (fun r => r.1 ≤ n && n ≤ r.2))

/-- Lowercase hexadecimal digit. -/
def hexDigitLower (n : Nat) : Char := if n < 10 then Char.ofNat (48 + n) else Char.ofNat (87 + n)

/-- Uppercase hexadecimal digit. -/
def hexDigitUpper (n : Nat) : Char := if n < 10 then Char.ofNat (48 + n) else Char.ofNat (55 + n)

/-- Zero-padded lowercase hexadecimal rendering of fixed width. -/
def hexPad (width n : Nat) : List Char :=
  (List.range width).map (fun i => hexDigitLower (n / 16 ^ (width - 1 - i) % 16))

/-- Escape of one character inside a Python repr string with quote q. -/
def reprEscapeChar (q c : Char) : List Char :=
  if c = '\\' then ['\\', '\\']
  else if c = q then ['\\', q]
  else if c = Char.ofNat 10 then ['\\', 'n']
  else if c = Char.ofNat 13 then ['\\', 'r']
  else if c = Char.ofNat 9 then ['\\', 't']
  else if isPrintableChar c then [c]
  else if c.toNat < 256 then '\\' :: 'x' :: hexPad 2 c.toNat
  else if c.toNat < 65536 then '\\' :: 'u' :: hexPad 4 c.toNat
  else '\\' :: 'U' :: hexPad 8 c.toNat

/-- Model of repr on a str: quoted with a single quote unless the string
contains one and no double quote, with backslash escapes for the quote,
backslash, newline, carriage return, tab and non-printable characters. -/
def pyRepr (s : String) : String :=
  let sq := Char.ofNat 39
  let dq := Char.ofNat 34
  let q := if s.toList.contains sq && !(s.toList.contains dq) then dq else sq
  String.mk (q :: s.toList.foldr (fun c acc => reprEscapeChar q c ++ acc) [q])

/-- Character list of the uppercase hex rendering of a byte list. -/
def hexChars (bs : List Nat) : List Char :=
  bs.foldr (fun b acc => hexDigitUpper (b / 16 % 16) :: hexDigitUpper (b % 16) :: acc) []

/-- Model of decoded_bytes.hex().upper(): two uppercase hex digits per byte. -/
def bytesToHexUpper (bs : List Nat) : String := String.mk (hexChars bs)

/-- Text rendering of decoded frame bytes, following lines 130-139 of
src/core/message_parser.py: the decoded text verbatim when the bytes are
valid UTF-8 and every character is printable; a placeholder that embeds the
repr of the text when some character is not printable; a fixed placeholder
when the bytes are not valid UTF-8. -/
def textRendering (bs : List Nat) : String :=
  match utf8Decode bs with
  | some cs =>
    if cs.all isPrintableChar then String.mk cs
    else "[비출력문자포함: " ++ pyRepr (String.mk cs) ++ "]"
  | none => "[텍스트 디코딩 불가]"

/-- Result dict of LoRaMessageParser._decode_payload_data: either the decoded
shape with the hex, text and bytes keys, or the error shape with the error
and raw keys (the raw key holds the original argument). -/
inductive DecodedData where
  | ok (hex : String) (text : String) (bytes : List Nat)
  | err (msg : String) (raw : Json)
deriving Repr

/-- Embedding of LoRaMessageParser._decode_payload_data
(src/core/message_parser.py, lines 119-150; the identical copy in
src/main.py, lines 233-264): decode the base64 argument; on success return
hex, text and byte representations; every raised exception (base64 failure,
or a TypeError because the argument is not a string) is caught and mapped to
the error shape carrying the original argument. -/
def decode_payload_data (data : Json) : DecodedData :=
  match data with
  | .str s =>
    match b64decode s with
    | .ok bs => .ok (bytesToHexUpper bs) (textRendering bs) bs
    | .err e => .err ("디코딩 오류: " ++ e) data
  | _ => .err "디코딩 오류: TypeError: argument should be a bytes-like object or ASCII string" data

/-- The summary dict built by LoRaMessageParser.extract_uplink_summary: a
field is none when the corresponding key was never assigned, and some v when
the key was assigned the value v (v is Json.null when the source assigned
Python None). -/
structure USummary where
  rssi : Option Json := none
  snr : Option Json := none
  latitude : Option Json := none
  longitude : Option Json := none
  data : Option Json := none
  decoded_data : Option DecodedData := none
  data_size : Option Nat := none
  fCnt : Option Json := none
  fPort : Option Json := none
  devEUI : Option Json := none
  frequency : Option Json := none
  dataRate : Option Json := none
deriving Repr

/-- Lines 50-58 of src/core/message_parser.py: the rxInfo block of the uplink
extraction.  The boolean is false when a statement of the block raised, in
which case the returned summary holds the assignments made before the raise
(the blanket except of the source then stops the whole extraction). -/
def uplinkRxBlock (p : PyDict) (s : USummary) : USummary × Bool :=
  match dictLookup p "rxInfo" with
  | none => (s, true)
  | some rx =>
    match pyLen rx with
    | .exn _ => (s, false)
    | .ok n =>
      if n > 0 then
        match pyIndex0 rx with
        | .exn _ => (s, false)
        | .ok rx0 =>
          match pyGet rx0 "rssi" with
          | .exn _ => (s, false)
          | .ok rssiV =>
            match pyGet rx0 "loRaSNR" with
            | .exn _ => ({ s with rssi := some rssiV }, false)
            | .ok snrV =>
              let s2 := { s with rssi := some rssiV, snr := some snrV }
              match pyIn "location" rx0 with
              | .exn _ => (s2, false)
              | .ok b =>
                if b then
                  match pySubscript rx0 "location" with
                  | .exn _ => (s2, false)
                  | .ok loc =>
                    match pyGet loc "latitude" with
                    | .exn _ => (s2, false)
                    | .ok latV =>
                      match pyGet loc "longitude" with
                      | .exn _ => ({ s2 with latitude := some latV }, false)
                      | .ok lonV =>
                        ({ s2 with latitude := some latV, longitude := some lonV }, true)
                else (s2, true)
      else (s, true)

/-- Lines 60-69 of src/core/message_parser.py: the data block of the uplink
extraction.  The data and decoded_data keys are assigned first; the byte
size is the length of the base64 decoding when it succeeds, and the inner
bare except maps a decode failure to half the length of the encoded value
(which itself raises, aborting the block, when the value has no len). -/
def uplinkDataBlock (p : PyDict) (s : USummary) : USummary × Bool :=
  match dictLookup p "data" with
  | none => (s, true)
  | some v =>
    let s1 := { s with data := some v, decoded_data := some (decode_payload_data v) }
    match v with
    | .str str0 =>
      match b64decode str0 with
      | .ok bs => ({ s1 with data_size := some bs.length }, true)
      | .err _ => ({ s1 with data_size := some (str0.length / 2) }, true)
    | _ =>
      match pyLen v with
      | .ok n => ({ s1 with data_size := some (n / 2) }, true)
      | .exn _ => (s1, false)

/-- Lines 71-74 of src/core/message_parser.py: frame counter, frame port and
device EUI are always assigned via dict.get, which cannot raise on a dict. -/
def uplinkFrameBlock (p : PyDict) (s : USummary) : USummary :=
  { s with fCnt := some (dictGet p "fCnt"), fPort := some (dictGet p "fPort"),
           devEUI := some (dictGet p "devEUI") }

/-- Lines 76-80 of src/core/message_parser.py: the txInfo block. -/
def uplinkTxBlock (p : PyDict) (s : USummary) : USummary × Bool :=
  match dictLookup p "txInfo" with
  | none => (s, true)
  | some tx =>
    match pyGet tx "frequency" with
    | .exn _ => (s, false)
    | .ok f =>
      match pyGet tx "dr" with
      | .exn _ => ({ s with frequency := some f }, false)
      | .ok d => ({ s with frequency := some f, dataRate := some d }, true)

/-- Embedding of LoRaMessageParser.extract_uplink_summary
(src/core/message_parser.py, lines 44-85; the identical copy
LoRaGatewayLogger._extract_payload_summary in src/main.py, lines 190-231).
The four blocks run inside one try; the first block that raises ends the
extraction and the summary accumulated so far is returned, so the function
never raises. -/
def extract_uplink_summary (payload : PyDict) : USummary :=
  let r1 := uplinkRxBlock payload {}
  if r1.2 then
    let r2 := uplinkDataBlock payload r1.1
    if r2.2 then
      (uplinkTxBlock payload (uplinkFrameBlock payload r2.1)).1
    else r2.1
  else r1.1

/-- The summary dict built by LoRaMessageParser.extract_join_summary, with
the same none/some convention as `USummary`. -/
structure JSummary where
  devEUI : Option Json := none
  joinEUI : Option Json := none
  devAddr : Option Json := none
  rssi : Option Json := none
  snr : Option Json := none
  latitude : Option Json := none
  longitude : Option Json := none
  frequency : Option Json := none
  dataRate : Option Json := none
deriving Repr

/-- Lines 92-95 of src/core/message_parser.py: the identity block of the join
extraction.  The join EUI is the Python expression
payload.get joinEUI or payload.get appEUI, i.e. the appEUI value is used
whenever the joinEUI value is falsy (absent, None, empty, zero or False).
All three assignments use dict.get on the payload dict and cannot raise. -/
def joinIdBlock (p : PyDict) (s : JSummary) : JSummary :=
  { s with devEUI := some (dictGet p "devEUI"),
           joinEUI := some (pyOr (dictGet p "joinEUI") (dictGet p "appEUI")),
           devAddr := some (dictGet p "devAddr") }

/-- Lines 97-106 of src/core/message_parser.py: the rxInfo block of the join
extraction, identical in shape to the uplink rxInfo block. -/
def joinRxBlock (p : PyDict) (s : JSummary) : JSummary × Bool :=
  match dictLookup p "rxInfo" with
  | none => (s, true)
  | some rx =>
    match pyLen rx with
    | .exn _ => (s, false)
    | .ok n =>
      if n > 0 then
        match pyIndex0 rx with
        | .exn _ => (s, false)
        | .ok rx0 =>
          match pyGet rx0 "rssi" with
          | .exn _ => (s, false)
          | .ok rssiV =>
            match pyGet rx0 "loRaSNR" with
            | .exn _ => ({ s with rssi := some rssiV }, false)
            | .ok snrV =>
              let s2 := { s with rssi := some rssiV, snr := some snrV }
              match pyIn "location" rx0 with
              | .exn _ => (s2, false)
              | .ok b =>
                if b then
                  match pySubscript rx0 "location" with
                  | .exn _ => (s2, false)
                  | .ok loc =>
                    match pyGet loc "latitude" with
                    | .exn _ => (s2, false)
                    | .ok latV =>
                      match pyGet loc "longitude" with
                      | .exn _ => ({ s2 with latitude := some latV }, false)
                      | .ok lonV =>
                        ({ s2 with latitude := some latV, longitude := some lonV }, true)
                else (s2, true)
      else (s, true)

/-- Lines 108-112 of src/core/message_parser.py: the txInfo block of the join
extraction. -/
def joinTxBlock (p : PyDict) (s : JSummary) : JSummary × Bool :=
  match dictLookup p "txInfo" with
  | none => (s, true)
  | some tx =>
    match pyGet tx "frequency" with
    | .exn _ => (s, false)
    | .ok f =>
      match pyGet tx "dr" with
      | .exn _ => ({ s with frequency := some f }, false)
      | .ok d => ({ s with frequency := some f, dataRate := some d }, true)

/-- Embedding of LoRaMessageParser.extract_join_summary
(src/core/message_parser.py, lines 87-117; the identical copy
LoRaGatewayLogger._extract_join_summary in src/main.py, lines 266-296). -/
def extract_join_summary (payload : PyDict) : JSummary :=
  let s0 := joinIdBlock payload {}
  let r1 := joinRxBlock payload s0
  if r1.2 then (joinTxBlock payload r1.1).1 else r1.1

/-- The self.stats dict shared by the dispatcher (src/main.py, lines 83-93)
and the data processor (src/core/data_processor.py, lines 36-45).
Timestamps are modelled as opaque natural numbers (seconds since the epoch,
UTC). -/
structure Stats where
  messages_received : Nat := 0
  messages_processed : Nat := 0
  joins_received : Nat := 0
  joins_processed : Nat := 0
  sqlite_saves : Nat := 0
  json_saves : Nat := 0
  errors : Nat := 0
  last_message_time : Option Nat := none
deriving Repr, DecidableEq

/-- An attempted sink operation: a SQLite insert of a record of the given
kind, or an append of one JSON line to the named file. -/
inductive SinkWrite where
  | sqliteInsert (kind : String)
  | jsonAppend (filename : String)
deriving Repr, DecidableEq

/-- Environment of one dispatch: whether the SQLite store is attached
(self.db is not None), the outcome the store insert would return (row id, or
None, or a raised exception), and the outcome of the JSON file append. -/
structure SinkEnv where
  dbEnabled : Bool
  sqliteResult : PyResult (Option Nat)
  jsonResult : PyResult Unit
deriving Repr, DecidableEq

/-- Civil date (year, month, day) of a day count since 1970-01-01, for
non-negative day counts (the Gregorian algorithm used by every calendar
library). -/
def civilFromDays (z0 : Nat) : Nat × Nat × Nat :=
  let z := z0 + 719468
  let era := z / 146097
  let doe := z % 146097
  let yoe := (doe - doe / 1460 + doe / 36524 - doe / 146096) / 365
  let y := yoe + era * 400
  let doy := doe - (365 * yoe + yoe / 4 - yoe / 100)
  let mp := (5 * doy + 2) / 153
  let d := doy - (153 * mp + 2) / 5 + 1
  let m := if mp < 10 then mp + 3 else mp - 9
  (if m ≤ 2 then y + 1 else y, m, d)

/-- Two-digit zero-padded decimal rendering. -/
def pad2 (n : Nat) : String := if n < 10 then "0" ++ toString n else toString n

/-- Model of strftime with the year-month-day format used by the source. -/
def yyyymmdd (ymd : Nat × Nat × Nat) : String :=
  toString ymd.1 ++ pad2 ymd.2.1 ++ pad2 ymd.2.2

/-- Model of datetime.now(timezone(timedelta(hours=9))).strftime on the
year-month-day format: the civil date of the given UTC instant shifted by the
fixed offset of nine hours. -/
def kstDateStr (nowUtc : Nat) : String :=
  yyyymmdd (civilFromDays ((nowUtc + 9 * 3600) / 86400))

/-- Model of datetime.now().strftime on the year-month-day format for a host
whose local timezone is UTC: the civil date of the instant with no offset.
The appenders in main.py use this untimezoned call, so their date component
follows the host clock rather than the fixed UTC+9 offset. -/
def utcDateStr (nowUtc : Nat) : String :=
  yyyymmdd (civilFromDays (nowUtc / 86400))

/-- File name used by LoRaDataProcessor._log_uplink_to_json
(src/core/data_processor.py, line 182). -/
def uplink_log_filename (nowUtc : Nat) : String :=
  "uplink_data_" ++ kstDateStr nowUtc ++ ".json"

/-- File name used by LoRaDataProcessor._log_join_to_json
(src/core/data_processor.py, line 195). -/
def join_log_filename (nowUtc : Nat) : String :=
  "join_events_" ++ kstDateStr nowUtc ++ ".json"

/-- Embedding of LoRaDataProcessor._save_uplink_data together with
_log_uplink_to_json (src/core/data_processor.py, lines 126-146 and 179-190):
one SQLite insert attempt when the store is attached (counting a save only
for a truthy returned row id, with the exception caught and logged), then one
JSON append attempt whose failure is also caught; the json_saves counter is
incremented only when the append succeeded. -/
def save_uplink_data (env : SinkEnv) (nowUtc : Nat) (st : Stats) : Stats × List SinkWrite :=
  let (st1, w1) :=
    if env.dbEnabled then
      (match env.sqliteResult with
       | .ok (some i) => if i ≠ 0 then { st with sqlite_saves := st.sqlite_saves + 1 } else st
       | .ok none => st
       | .exn _ => st,
       [SinkWrite.sqliteInsert "uplink"])
    else (st, [])
  let (st2, w2) :=
    match env.jsonResult with
    | .ok _ => ({ st1 with json_saves := st1.json_saves + 1 },
                [SinkWrite.jsonAppend (uplink_log_filename nowUtc)])
    | .exn _ => (st1, [SinkWrite.jsonAppend (uplink_log_filename nowUtc)])
  (st2, w1 ++ w2)

/-- Embedding of LoRaDataProcessor._save_join_event together with
_log_join_to_json (src/core/data_processor.py, lines 148-177 and 192-203). -/
def save_join_event (env : SinkEnv) (nowUtc : Nat) (st : Stats) : Stats × List SinkWrite :=
  let (st1, w1) :=
    if env.dbEnabled then
      (match env.sqliteResult with
       | .ok (some i) => if i ≠ 0 then { st with sqlite_saves := st.sqlite_saves + 1 } else st
       | .ok none => st
       | .exn _ => st,
       [SinkWrite.sqliteInsert "join"])
    else (st, [])
  let (st2, w2) :=
    match env.jsonResult with
    | .ok _ => ({ st1 with json_saves := st1.json_saves + 1 },
                [SinkWrite.jsonAppend (join_log_filename nowUtc)])
    | .exn _ => (st1, [SinkWrite.jsonAppend (join_log_filename nowUtc)])
  (st2, w1 ++ w2)

/-- Embedding of LoRaDataProcessor.process_uplink_message
(src/core/data_processor.py, lines 47-78): increment messages_received and
stamp the activity time, run the persistence fan-out (all of whose sink
failures are caught internally), then increment messages_processed.  Every
step inside the try of the source is total in this model, so the except
branch that would increment the error counter is unreachable and the
function always returns normally. -/
def process_uplink_message (env : SinkEnv) (nowUtc : Nat) (st : Stats)
    (application_id device_id topic : String) (payload_summary : USummary) :
    Stats × List SinkWrite :=
  let st1 := { st with messages_received := st.messages_received + 1,
                       last_message_time := some nowUtc }
  let (st2, w) := save_uplink_data env nowUtc st1
  ({ st2 with messages_processed := st2.messages_processed + 1 }, w)

/-- Embedding of LoRaDataProcessor.process_join_event
(src/core/data_processor.py, lines 80-100). -/
def process_join_event (env : SinkEnv) (nowUtc : Nat) (st : Stats)
    (application_id device_id topic : String) (join_summary : JSummary) :
    Stats × List SinkWrite :=
  let st1 := { st with joins_received := st.joins_received + 1,
                       last_message_time := some nowUtc }
  let (st2, w) := save_join_event env nowUtc st1
  ({ st2 with joins_processed := st2.joins_processed + 1 }, w)

/-- File name used by LoRaGatewayLogger.log_uplink_data (src/main.py,
line 363); the date component comes from datetime.now() without a timezone,
modelled as an opaque local date string. -/
def log_uplink_filename_main (localDate : String) : String :=
  "uplink_data_" ++ localDate ++ ".json"

/-- File name used by LoRaGatewayLogger.log_join_event (src/main.py,
line 330). -/
def log_join_filename_main (localDate : String) : String :=
  "join_events_" ++ localDate ++ ".json"

/-- Embedding of LoRaGatewayLogger.save_uplink_data with log_uplink_data
(src/main.py, lines 340-371), the in-dispatcher copy of the data-processor
fan-out. -/
def save_uplink_data_main (env : SinkEnv) (localDate : String) (st : Stats) :
    Stats × List SinkWrite :=
  let (st1, w1) :=
    if env.dbEnabled then
      (match env.sqliteResult with
       | .ok (some i) => if i ≠ 0 then { st with sqlite_saves := st.sqlite_saves + 1 } else st
       | .ok none => st
       | .exn _ => st,
       [SinkWrite.sqliteInsert "uplink"])
    else (st, [])
  let (st2, w2) :=
    match env.jsonResult with
    | .ok _ => ({ st1 with json_saves := st1.json_saves + 1 },
                [SinkWrite.jsonAppend (log_uplink_filename_main localDate)])
    | .exn _ => (st1, [SinkWrite.jsonAppend (log_uplink_filename_main localDate)])
  (st2, w1 ++ w2)

/-- Embedding of LoRaGatewayLogger.save_join_event with log_join_event
(src/main.py, lines 298-338). -/
def save_join_event_main (env : SinkEnv) (localDate : String) (st : Stats) :
    Stats × List SinkWrite :=
  let (st1, w1) :=
    if env.dbEnabled then
      (match env.sqliteResult with
       | .ok (some i) => if i ≠ 0 then { st with sqlite_saves := st.sqlite_saves + 1 } else st
       | .ok none => st
       | .exn _ => st,
       [SinkWrite.sqliteInsert "join"])
    else (st, [])
  let (st2, w2) :=
    match env.jsonResult with
    | .ok _ => ({ st1 with json_saves := st1.json_saves + 1 },
                [SinkWrite.jsonAppend (log_join_filename_main localDate)])
    | .exn _ => (st1, [SinkWrite.jsonAppend (log_join_filename_main localDate)])
  (st2, w1 ++ w2)

/-- Embedding of LoRaGatewayLogger._handle_uplink_message (src/main.py,
lines 137-171). -/
def handle_uplink_message_main (env : SinkEnv) (localDate : String) (now : Nat)
    (st : Stats) (payload : PyDict) (topic application_id device_id : String) :
    Stats × List SinkWrite :=
  let st1 := { st with messages_received := st.messages_received + 1,
                       last_message_time := some now }
  let payload_summary := extract_uplink_summary payload
  let (st2, w) := save_uplink_data_main env localDate st1
  ({ st2 with messages_processed := st2.messages_processed + 1 }, w)

/-- Embedding of LoRaGatewayLogger._handle_join_event (src/main.py,
lines 173-188). -/
def handle_join_event_main (env : SinkEnv) (localDate : String) (now : Nat)
    (st : Stats) (payload : PyDict) (topic application_id device_id : String) :
    Stats × List SinkWrite :=
  let st1 := { st with joins_received := st.joins_received + 1,
                       last_message_time := some now }
  let join_summary := extract_join_summary payload
  let (st2, w) := save_join_event_main env localDate st1
  ({ st2 with joins_processed := st2.joins_processed + 1 }, w)

/-- Embedding of LoRaGatewayLogger.on_message (src/main.py, lines 107-135).
The parsed argument models the outcome of
json.loads on the decoded payload bytes; the except branch for a JSON decode
failure increments the global error counter and returns.  Topics with fewer
than five segments return with no state change; this dispatcher reads the
event kind from segment index 4 (the parser of src/core/message_parser.py
reads index 5 — the documented index discrepancy between the two variants). -/
def on_message (env : SinkEnv) (localDate : String) (now : Nat) (st : Stats)
    (topic : String) (parsed : PyResult PyDict) : Stats × List SinkWrite :=
  let topic_parts := splitSlash topic
  if topic_parts.length < 5 then (st, [])
  else
    let application_id := topic_parts.getD 1 ""
    let device_id := topic_parts.getD 3 ""
    let event_type := topic_parts.getD 4 ""
    match parsed with
    | .exn _ => ({ st with errors := st.errors + 1 }, [])
    | .ok payload =>
      if event_type = "up" then
        handle_uplink_message_main env localDate now st payload topic application_id device_id
      else if event_type = "join" then
        handle_join_event_main env localDate now st payload topic application_id device_id
      else (st, [])

/-- The file names of the JSON append attempts among a list of sink
operations. -/
def jsonFilenames (ws : List SinkWrite) : List String :=
  ws.filterMap (fun w => match w with | .jsonAppend f => some f | _ => none)

/-! Helper lemmas: which summary fields each extraction block can touch. -/

theorem uplinkRxBlock_pres (p : PyDict) (s : USummary) :
    ((uplinkRxBlock p s).1.data = s.data) ∧
    ((uplinkRxBlock p s).1.decoded_data = s.decoded_data) ∧
    ((uplinkRxBlock p s).1.data_size = s.data_size) := by
  unfold uplinkRxBlock
  repeat' split
  all_goals simp

theorem uplinkDataBlock_pres (p : PyDict) (s : USummary) :
    ((uplinkDataBlock p s).1.rssi = s.rssi) ∧
    ((uplinkDataBlock p s).1.snr = s.snr) := by
  unfold uplinkDataBlock
  repeat' split
  all_goals simp

theorem uplinkFrameBlock_pres (p : PyDict) (s : USummary) :
    ((uplinkFrameBlock p s).rssi = s.rssi) ∧
    ((uplinkFrameBlock p s).snr = s.snr) ∧
    ((uplinkFrameBlock p s).data = s.data) ∧
    ((uplinkFrameBlock p s).decoded_data = s.decoded_data) ∧
    ((uplinkFrameBlock p s).data_size = s.data_size) := by
  unfold uplinkFrameBlock
  simp

theorem uplinkTxBlock_pres (p : PyDict) (s : USummary) :
    ((uplinkTxBlock p s).1.rssi = s.rssi) ∧
    ((uplinkTxBlock p s).1.snr = s.snr) ∧
    ((uplinkTxBlock p s).1.data = s.data) ∧
    ((uplinkTxBlock p s).1.decoded_data = s.decoded_data) ∧
    ((uplinkTxBlock p s).1.data_size = s.data_size) := by
  unfold uplinkTxBlock
  repeat' split
  all_goals simp

theorem joinRxBlock_pres (p : PyDict) (s : JSummary) :
    ((joinRxBlock p s).1.joinEUI = s.joinEUI) ∧
    ((joinRxBlock p s).1.devEUI = s.devEUI) ∧
    ((joinRxBlock p s).1.devAddr = s.devAddr) := by
  unfold joinRxBlock
  repeat' split
  all_goals simp

theorem joinTxBlock_pres (p : PyDict) (s : JSummary) :
    ((joinTxBlock p s).1.joinEUI = s.joinEUI) ∧
    ((joinTxBlock p s).1.devEUI = s.devEUI) ∧
    ((joinTxBlock p s).1.devAddr = s.devAddr) := by
  unfold joinTxBlock
  repeat' split
  all_goals simp

/-- The data, decoded_data and data_size fields of the extracted uplink
summary are those produced by the data block applied after the rxInfo block,
provided the rxInfo block did not raise. -/
theorem extract_uplink_eq_dataBlock (p : PyDict) (h : (uplinkRxBlock p {}).2 = true) :
    (extract_uplink_summary p).data = (uplinkDataBlock p (uplinkRxBlock p {}).1).1.data ∧
    (extract_uplink_summary p).decoded_data
      = (uplinkDataBlock p (uplinkRxBlock p {}).1).1.decoded_data ∧
    (extract_uplink_summary p).data_size
      = (uplinkDataBlock p (uplinkRxBlock p {}).1).1.data_size := by
  unfold extract_uplink_summary
  simp only [h, if_true]
  split
  · exact ⟨by rw [(uplinkTxBlock_pres _ _).2.2.1, (uplinkFrameBlock_pres _ _).2.2.1],
           by rw [(uplinkTxBlock_pres _ _).2.2.2.1, (uplinkFrameBlock_pres _ _).2.2.2.1],
           by rw [(uplinkTxBlock_pres _ _).2.2.2.2, (uplinkFrameBlock_pres _ _).2.2.2.2]⟩
  · exact ⟨rfl, rfl, rfl⟩

/-- C1: for every topic string, parse_topic splits the topic on the slash
and, when at least six segments are present (so the event-kind position,
segment index 5, is reachable), returns the route (application id = segment
1, device id = segment 3, event kind = segment 5); with fewer segments it
returns none; it is a total function, so it never raises. -/
theorem C1_parse_topic (t : String) :
    (6 ≤ (splitSlash t).length →
      parse_topic t
        = some ((splitSlash t).getD 1 "", (splitSlash t).getD 3 "", (splitSlash t).getD 5 "")) ∧
    ((splitSlash t).length < 6 → parse_topic t = none) := by
  constructor
  · intro h
    simp only [parse_topic]
    rw [if_neg (by omega)]
  · intro h
    simp only [parse_topic]
    rw [if_pos h]

/-- Witness for C1 at a canonical six-segment topic and at a short topic. -/
theorem C1_parse_topic_witness :
    parse_topic "application/app-1/device/dev-1/event/up" = some ("app-1", "dev-1", "up") ∧
    parse_topic "application/device" = none := by
  constructor
  · exact ((C1_parse_topic "application/app-1/device/dev-1/event/up").1 (by decide)).trans
      (by decide)
  · exact (C1_parse_topic "application/device").2 (by decide)

/-- C2: when the topic reaches the event-kind position and routes to a known
event kind but the payload is not valid JSON, on_message increments the
global error counter by exactly one, performs no sink write (the returned
operation list is empty, and every other stats field — in particular
sqlite_saves and json_saves — is unchanged), and returns normally. -/
theorem C2_on_message_bad_json (env : SinkEnv) (localDate : String) (now : Nat)
    (st : Stats) (topic : String) (e : String)
    (h5 : 5 ≤ (splitSlash topic).length)
    (hkind : (splitSlash topic).getD 4 "" = "up" ∨ (splitSlash topic).getD 4 "" = "join") :
    on_message env localDate now st topic (.exn e)
      = ({ st with errors := st.errors + 1 }, []) := by
  simp only [on_message]
  rw [if_neg (by omega)]

/-- Witness for C2 on a concrete dispatch. -/
theorem C2_on_message_bad_json_witness :
    on_message ⟨true, .ok (some 1), .ok ()⟩ "20250102" 0 {}
        "application/a/device/b/up" (.exn "Expecting value")
      = ({ errors := 1 }, []) := by
  have h := C2_on_message_bad_json ⟨true, .ok (some 1), .ok ()⟩ "20250102" 0 {}
    "application/a/device/b/up" "Expecting value" (by decide) (Or.inl (by decide))
  exact h.trans (by decide)

/-- C3: every uplink dispatch that reaches the persistence step increments
messages_processed by exactly one, for every combination of sink outcomes —
including a failing SQLite insert together with a failing JSON append — and
the processing call always returns normally (it is a total function into a
plain pair, with no error component). -/
theorem C3_processed_incremented (env : SinkEnv) (nowUtc : Nat) (st : Stats)
    (application_id device_id topic : String) (payload_summary : USummary) :
    ((process_uplink_message env nowUtc st application_id device_id topic
        payload_summary).1).messages_processed
      = st.messages_processed + 1 := by
  unfold process_uplink_message save_uplink_data
  repeat' split
  all_goals simp

/-- C5 (amended): for every record appended to the per-day log the file name
is uplink_data_YYYYMMDD.json for uplink records but join_events_YYYYMMDD.json
(not join_data_YYYYMMDD.json) for join records, in the core data processor
and in the dispatcher copies of main.py alike; the date component is
computed in the fixed UTC+9 offset by the data-processor appenders, while
the main.py appenders derive it from the untimezoned host-local clock.  The
two concrete conjuncts exhibit an instant whose UTC+9 date differs from its
UTC date, showing the fixed offset is real. -/
theorem C5_log_filenames :
    (∀ (env : SinkEnv) (nowUtc : Nat) (st : Stats) (a d t : String) (sum : USummary),
       jsonFilenames (process_uplink_message env nowUtc st a d t sum).2
         = ["uplink_data_" ++ kstDateStr nowUtc ++ ".json"]) ∧
    (∀ (env : SinkEnv) (nowUtc : Nat) (st : Stats) (a d t : String) (sum : JSummary),
       jsonFilenames (process_join_event env nowUtc st a d t sum).2
         = ["join_events_" ++ kstDateStr nowUtc ++ ".json"]) ∧
    (∀ (env : SinkEnv) (localDate : String) (now : Nat) (st : Stats) (payload : PyDict)
       (t a d : String),
       jsonFilenames (handle_uplink_message_main env localDate now st payload t a d).2
         = ["uplink_data_" ++ localDate ++ ".json"]) ∧
    (∀ (env : SinkEnv) (localDate : String) (now : Nat) (st : Stats) (payload : PyDict)
       (t a d : String),
       jsonFilenames (handle_join_event_main env localDate now st payload t a d).2
         = ["join_events_" ++ localDate ++ ".json"]) ∧
    kstDateStr 1699999200 = "20231115" ∧
    yyyymmdd (civilFromDays (1699999200 / 86400)) = "20231114" := by
  refine ⟨?_, ?_, ?_, ?_, by decide, by decide⟩
  · intro env nowUtc st a d t sum
    unfold process_uplink_message save_uplink_data
    repeat' split
    all_goals rfl
  · intro env nowUtc st a d t sum
    unfold process_join_event save_join_event
    repeat' split
    all_goals rfl
  · intro env localDate now st payload t a d
    unfold handle_uplink_message_main save_uplink_data_main
    repeat' split
    all_goals rfl
  · intro env localDate now st payload t a d
    unfold handle_join_event_main save_join_event_main
    repeat' split
    all_goals rfl

/-- Counterexample for C5 as stated, on both failing clauses: (a) at the
epoch instant the core data processor appends the join record to
join_events_19700101.json, not to join_data_19700101.json; (b) at the UTC
instant 57600 (16:00 on 1 Jan 1970) the main.py dispatcher running on a host
in the UTC timezone appends the uplink record to uplink_data_19700101.json,
the untimezoned local date, while the fixed UTC+9 date of the same instant
is 19700102 — so that appender violates the UTC+9 clause of the claim. -/
theorem C5_counterexample :
    jsonFilenames (process_join_event ⟨true, .ok (some 1), .ok ()⟩ 0 {}
        "app" "dev" "topic" {}).2
      = ["join_events_19700101.json"] ∧
    "join_events_19700101.json" ≠ "join_data_19700101.json" ∧
    jsonFilenames (handle_uplink_message_main ⟨true, .ok (some 1), .ok ()⟩
        (utcDateStr 57600) 57600 {} [] "topic" "app" "dev").2
      = ["uplink_data_19700101.json"] ∧
    kstDateStr 57600 = "19700102" ∧
    "uplink_data_19700101.json" ≠ "uplink_data_" ++ kstDateStr 57600 ++ ".json" := by
  exact ⟨by decide, by decide, by decide, by decide, by decide⟩

theorem hexChars_length (bs : List Nat) : (hexChars bs).length = 2 * bs.length := by
  induction bs with
  | nil => rfl
  | cons b tl ih => simp [hexChars] at ih ⊢; omega

theorem bytesToHexUpper_length (bs : List Nat) :
    (bytesToHexUpper bs).length = 2 * bs.length := by
  simpa [bytesToHexUpper, String.length] using hexChars_length bs

/-- Counterexample for C4 as stated: when the joinEUI key is present with the
empty string as value and an appEUI key is also present, the summary stores
the appEUI value, not the joinEUI value. -/
theorem C4_counterexample :
    (extract_join_summary [("joinEUI", Json.str ""), ("appEUI", Json.str "BB")]).joinEUI
      = some (Json.str "BB") ∧
    dictLookup [("joinEUI", Json.str ""), ("appEUI", Json.str "BB")] "joinEUI"
      = some (Json.str "") ∧
    Json.str "BB" ≠ Json.str "" :=
  ⟨rfl, rfl, fun h => absurd (Json.str.inj h) (by decide)⟩

/-- C4 (amended): the joinEUI key wins whenever its value is truthy in the
Python sense (not None, not empty, not zero, not False); when the joinEUI
value is absent or falsy the appEUI value is used instead. -/
theorem C4_joinEUI_truthy (p : PyDict) (v : Json)
    (h : dictLookup p "joinEUI" = some v) (ht : pyTruthy v = true) :
    (extract_join_summary p).joinEUI = some v := by
  have hid : (joinIdBlock p {}).joinEUI = some v := by
    simp only [joinIdBlock, dictGet, h, Option.getD_some, pyOr, ht, if_true]
  simp only [extract_join_summary]
  split
  · rw [(joinTxBlock_pres _ _).1, (joinRxBlock_pres _ _).1, hid]
  · rw [(joinRxBlock_pres _ _).1, hid]

/-- Witness for C4 (amended) on a document holding both keys with truthy
values. -/
theorem C4_joinEUI_truthy_witness :
    (extract_join_summary [("joinEUI", Json.str "BB"), ("appEUI", Json.str "AA")]).joinEUI
      = some (Json.str "BB") :=
  C4_joinEUI_truthy _ _ rfl rfl

/-- C7: on every document whose rxInfo key holds an empty list the extraction
returns a summary with rssi and snr absent (and, the extraction being a total
function that models the blanket except of the source, the call returns a
summary for every input document). -/
theorem C7_empty_rxInfo (p : PyDict) (h : dictLookup p "rxInfo" = some (Json.arr [])) :
    (extract_uplink_summary p).rssi = none ∧ (extract_uplink_summary p).snr = none := by
  have hrx : uplinkRxBlock p {} = ({}, true) := by
    unfold uplinkRxBlock
    rw [h]
    rfl
  have hsplit : extract_uplink_summary p
      = (if (uplinkDataBlock p {}).2 = true
         then (uplinkTxBlock p (uplinkFrameBlock p (uplinkDataBlock p {}).1)).1
         else (uplinkDataBlock p {}).1) := by
    simp only [extract_uplink_summary, hrx, if_true]
  rw [hsplit]
  refine ⟨?_, ?_⟩ <;> split
  · rw [(uplinkTxBlock_pres _ _).1, (uplinkFrameBlock_pres _ _).1, (uplinkDataBlock_pres _ _).1]
  · rw [(uplinkDataBlock_pres _ _).1]
  · rw [(uplinkTxBlock_pres _ _).2.1, (uplinkFrameBlock_pres _ _).2.1,
        (uplinkDataBlock_pres _ _).2]
  · rw [(uplinkDataBlock_pres _ _).2]

/-- Witness for C7 on a document with an empty rxInfo list. -/
theorem C7_empty_rxInfo_witness :
    (extract_uplink_summary [("rxInfo", Json.arr []), ("fCnt", Json.num 7)]).rssi = none ∧
    (extract_uplink_summary [("rxInfo", Json.arr []), ("fCnt", Json.num 7)]).snr = none :=
  C7_empty_rxInfo _ rfl

/-- Inversion of the data block: when it produced a decoded shape, the data
size it assigned is the decoded byte count and the hex rendering is the
uppercase hex of those bytes. -/
theorem uplinkDataBlock_ok_inv (p : PyDict) (s0 : USummary) (hex text : String)
    (bs : List Nat) (h0 : s0.decoded_data = none)
    (h : (uplinkDataBlock p s0).1.decoded_data = some (DecodedData.ok hex text bs)) :
    (uplinkDataBlock p s0).1.data_size = some bs.length ∧ hex = bytesToHexUpper bs := by
  revert h
  unfold uplinkDataBlock
  split
  · intro h
    rw [h0] at h
    exact Option.noConfusion h
  next v heq =>
    cases v with
    | str str0 =>
      cases hb : b64decode str0 with
      | ok bs0 =>
        intro h
        simp only [decode_payload_data, hb] at h ⊢
        simp at h
        obtain ⟨h1, h2, h3⟩ := h
        subst h3
        exact ⟨by simp, h1.symm⟩
      | err e =>
        intro h
        simp only [decode_payload_data, hb] at h
        simp at h
    | null => intro h; simp [decode_payload_data, pyLen] at h
    | bool b => intro h; simp [decode_payload_data, pyLen] at h
    | num n => intro h; simp [decode_payload_data, pyLen] at h
    | arr l => intro h; simp [decode_payload_data, pyLen] at h
    | obj l => intro h; simp [decode_payload_data, pyLen] at h

/-- C10: whenever the extracted summary holds a decoded frame shape, the
decoded representations are mutually consistent — data_size equals the
length of the decoded byte list and the hex string has exactly twice that
many characters. -/
theorem C10_decoded_consistency (p : PyDict) (hex text : String) (bs : List Nat)
    (h : (extract_uplink_summary p).decoded_data = some (DecodedData.ok hex text bs)) :
    (extract_uplink_summary p).data_size = some bs.length ∧
    hex.length = 2 * bs.length := by
  by_cases hrx : (uplinkRxBlock p {}).2 = true
  · obtain ⟨hd, hdd, hds⟩ := extract_uplink_eq_dataBlock p hrx
    rw [hdd] at h
    have h0 : ((uplinkRxBlock p {}).1).decoded_data = none := (uplinkRxBlock_pres p {}).2.1
    obtain ⟨hsize, hhex⟩ := uplinkDataBlock_ok_inv p _ hex text bs h0 h
    exact ⟨hds.trans hsize, by rw [hhex]; exact bytesToHexUpper_length bs⟩
  · have hx : extract_uplink_summary p = (uplinkRxBlock p {}).1 := by
      simp only [extract_uplink_summary]
      rw [if_neg hrx]
    rw [hx, (uplinkRxBlock_pres p {}).2.1] at h
    exact Option.noConfusion h

/-- Witness for C10 on a document whose data field is the base64 encoding of
TEST. -/
theorem C10_decoded_consistency_witness :
    (extract_uplink_summary [("data", Json.str "VEVTVA==")]).data_size = some 4 ∧
    ("54455354" : String).length = 2 * 4 := by
  have h := C10_decoded_consistency [("data", Json.str "VEVTVA==")] "54455354" "TEST"
    [84, 69, 83, 84] rfl
  exact ⟨h.1.trans (by decide), by decide⟩
